import Mathlib

/-
  Verification development for the fbdev backend of the weston compositor
  (src/compositor-fbdev.c).

  The C module is shallowly embedded below.  Pure computations
  (calculate_pixman_format, calculate_refresh_rate, compare_screen_info,
  the repaint transform arithmetic) become Lean functions over Nat/Int with
  explicit wrap-around (`% 2^32`, `% 2^64`) where the C integer width
  matters.  The stateful VT lifecycle (fbdev_frame_buffer_map,
  fbdev_output_create/destroy/disable/reenable, vt_func) becomes explicit
  state passing over a token-based heap model: every resource the C code
  allocates (file descriptor, mmap region, pixman image, malloc'd shadow
  buffer) is a fresh Nat token drawn from a counter, and every externally
  visible effect (open/close/munmap/unref/free/seat toggles) is recorded in
  an event list, so that double-free, leak and identity-preservation
  properties can be stated.  Outcomes of the fallible system calls are
  supplied by an `Env` oracle consulted at per-call counters.
-/

namespace Fbdev

/-! ### Data model: struct fbdev_screeninfo -/

/-- struct fbdev_screeninfo: snapshot of device mode metadata. -/
structure ScreenInfo where
  x_resolution : Nat
  y_resolution : Nat
  width_mm : Nat
  height_mm : Nat
  bits_per_pixel : Nat
  buffer_length : Nat
  line_length : Nat
  id : String
  pixel_format : Nat
  refresh_rate : Nat
deriving DecidableEq, Repr

/-- compare_screen_info (strcmp-style result): the C code compares
x/y resolution, physical size, bits per pixel, pixel format and refresh
rate; `buffer_length`, `line_length` and `id` are not examined. -/
def compare_screen_info (a b : ScreenInfo) : Int :=
  if a.x_resolution = b.x_resolution ∧
     a.y_resolution = b.y_resolution ∧
     a.width_mm = b.width_mm ∧
     a.height_mm = b.height_mm ∧
     a.bits_per_pixel = b.bits_per_pixel ∧
     a.pixel_format = b.pixel_format ∧
     a.refresh_rate = b.refresh_rate
  then 0
  else 1

/-- Claim-side predicate (from the spec's words, for refuting/refining C5):
two ScreenInfo values agree on every field other than the identifier
string, including `buffer_length` and `line_length`. -/
def screeninfo_eq_except_id (a b : ScreenInfo) : Bool :=
  decide (a.x_resolution = b.x_resolution ∧
          a.y_resolution = b.y_resolution ∧
          a.width_mm = b.width_mm ∧
          a.height_mm = b.height_mm ∧
          a.bits_per_pixel = b.bits_per_pixel ∧
          a.buffer_length = b.buffer_length ∧
          a.line_length = b.line_length ∧
          a.pixel_format = b.pixel_format ∧
          a.refresh_rate = b.refresh_rate)

/-! ### Pixel format resolver: calculate_pixman_format -/

/-- struct fb_bitfield (linux/fb.h): one color channel descriptor. -/
structure fb_bitfield where
  offset : Nat
  length : Nat
  msb_right : Nat
deriving DecidableEq, Repr

/-- The fields of struct fb_var_screeninfo read by this module. -/
structure fb_var_screeninfo where
  xres : Nat
  yres : Nat
  width : Nat
  height : Nat
  bits_per_pixel : Nat
  grayscale : Nat
  red : fb_bitfield
  green : fb_bitfield
  blue : fb_bitfield
  transp : fb_bitfield
  upper_margin : Nat
  lower_margin : Nat
  left_margin : Nat
  right_margin : Nat
  pixclock : Nat
deriving DecidableEq, Repr

/-- The fields of struct fb_fix_screeninfo read by this module. -/
structure fb_fix_screeninfo where
  type : Nat
  visual : Nat
  smem_len : Nat
  line_length : Nat
  id : String
deriving DecidableEq, Repr

def FB_TYPE_PACKED_PIXELS : Nat := 0
def FB_VISUAL_TRUECOLOR : Nat := 2

def PIXMAN_TYPE_OTHER : Nat := 0
def PIXMAN_TYPE_ARGB : Nat := 2
def PIXMAN_TYPE_RGBA : Nat := 9

/-- The PIXMAN_FORMAT(bpp,type,a,r,g,b) macro; the C expression is
computed in 32-bit arithmetic. -/
def PIXMAN_FORMAT (bpp typ a r g b : Nat) : Nat :=
  ((bpp <<< 24) ||| (typ <<< 16) ||| (a <<< 12) |||
   (r <<< 8) ||| (g <<< 4) ||| b) % 2 ^ 32

/-- The ARGB channel-ordering test of calculate_pixman_format (the first
`if` computing `type`): alpha at or above red (or absent), red at or above
green, green at or above blue. -/
def argb_ordered (v : fb_var_screeninfo) : Bool :=
  decide ((v.transp.offset ≥ v.red.offset ∨ v.transp.length = 0) ∧
          v.red.offset ≥ v.green.offset ∧
          v.green.offset ≥ v.blue.offset)

/-- The RGBA channel-ordering test of calculate_pixman_format (the
`else if` computing `type`). -/
def rgba_ordered (v : fb_var_screeninfo) : Bool :=
  decide (v.red.offset ≥ v.green.offset ∧
          v.green.offset ≥ v.blue.offset ∧
          v.blue.offset ≥ v.transp.offset)

/-- calculate_pixman_format: derive the pixman format from the raw
descriptors; 0 is the "unsupported" sentinel. -/
def calculate_pixman_format (vinfo : fb_var_screeninfo)
    (finfo : fb_fix_screeninfo) : Nat :=
  if finfo.type ≠ FB_TYPE_PACKED_PIXELS then 0
  else if finfo.visual ≠ FB_VISUAL_TRUECOLOR ∨ vinfo.grayscale ≠ 0 then 0
  else if vinfo.red.msb_right ≠ 0 ∨ vinfo.green.msb_right ≠ 0 ∨
          vinfo.blue.msb_right ≠ 0 then 0
  else
    let typ := if argb_ordered vinfo then PIXMAN_TYPE_ARGB
               else if rgba_ordered vinfo then PIXMAN_TYPE_RGBA
               else PIXMAN_TYPE_OTHER
    if typ = PIXMAN_TYPE_OTHER then 0
    else PIXMAN_FORMAT vinfo.bits_per_pixel typ vinfo.transp.length
           vinfo.red.length vinfo.green.length vinfo.blue.length

/-! ### Refresh rate estimation: calculate_refresh_rate -/

/-- The `quot` computed by calculate_refresh_rate: the two parenthesised
sums are 32-bit additions, the accumulating products are 64-bit. -/
def refresh_quot (v : fb_var_screeninfo) : Nat :=
  ((v.upper_margin + v.lower_margin + v.yres) % 2 ^ 32 *
     ((v.left_margin + v.right_margin + v.xres) % 2 ^ 32) % 2 ^ 64) *
    (v.pixclock % 2 ^ 32) % 2 ^ 64

/-- calculate_refresh_rate: frame period inverted to milli-Hertz, capped
at 200000, defaulting to 60000 when the period is zero. -/
def calculate_refresh_rate (v : fb_var_screeninfo) : Nat :=
  let quot := refresh_quot v
  if quot > 0 then
    let refresh_rate := 1000000000000000 / quot
    if refresh_rate > 200000 then 200000 else refresh_rate
  else 60 * 1000

/-! ### Output surface pipeline: fbdev_output_repaint, finish_frame_handler -/

def WL_OUTPUT_TRANSFORM_NORMAL : Nat := 0
def WL_OUTPUT_TRANSFORM_90 : Nat := 1
def WL_OUTPUT_TRANSFORM_180 : Nat := 2
def WL_OUTPUT_TRANSFORM_270 : Nat := 3

/-- pixman_box32_t: one damaged rectangle. -/
structure PixBox where
  x1 : Int
  y1 : Int
  x2 : Int
  y2 : Int
deriving DecidableEq, Repr

/-- One pixman_image_composite32 call issued by fbdev_output_repaint. -/
structure CompositeOp where
  src_x : Int
  src_y : Int
  dest_x : Int
  dest_y : Int
  width : Int
  height : Int
deriving DecidableEq, Repr

/-- The switch on base->transform inside the repaint loop, yielding
(x1, x2, y1, y2); the `default` case falls through to NORMAL. -/
def repaint_rect_coords (transform : Nat) (width height : Int)
    (r : PixBox) : Int × Int × Int × Int :=
  if transform = WL_OUTPUT_TRANSFORM_180 then
    (width - r.x2, width - r.x1, height - r.y2, height - r.y1)
  else if transform = WL_OUTPUT_TRANSFORM_90 then
    (height - r.y2, height - r.y1, r.x1, r.x2)
  else if transform = WL_OUTPUT_TRANSFORM_270 then
    (r.y1, r.y2, width - r.x2, width - r.x1)
  else
    (r.x1, r.x2, r.y1, r.y2)

/-- Observable result of fbdev_output_repaint: the composite calls onto
the hardware surface and the timer delay armed afterwards. -/
structure RepaintResult where
  ops : List CompositeOp
  timer_delay_ms : Nat
deriving DecidableEq, Repr

/-- fbdev_output_repaint: per damaged rectangle, composite the
transformed rectangle from the shadow surface (src_x/src_y = x1/y1) onto
the hardware surface at (x1, y1) with extent (x2-x1, y2-y1); finally arm
the finish-frame timer with 1000000 / refresh milliseconds. -/
def fbdev_output_repaint (transform : Nat) (width height : Int)
    (refresh : Nat) (damage : List PixBox) : RepaintResult :=
  { ops := damage.map fun r =>
      let c := repaint_rect_coords transform width height r
      { src_x := c.1, src_y := c.2.2.1,
        dest_x := c.1, dest_y := c.2.2.1,
        width := c.2.1 - c.1, height := c.2.2.2 - c.2.2.1 },
    timer_delay_ms := 1000000 / refresh }

/-- finish_frame_handler: msec is a uint32_t, so tv_sec*1000 + tv_usec/1000
is truncated mod 2^32; the handler always returns 1. -/
def finish_frame_handler (tv_sec tv_usec : Nat) : Nat × Int :=
  ((tv_sec * 1000 + tv_usec / 1000) % 2 ^ 32, 1)

/-- Claim-side value (from the spec's words, for C9): the current
wall-clock timestamp in milliseconds since epoch. -/
def claimed_msec_since_epoch (tv_sec tv_usec : Nat) : Nat :=
  tv_sec * 1000 + tv_usec / 1000

/-- Claim-side transform table (from the claim's words, for C4):
normal or unknown values give (x1,x2,y1,y2); 180, 90 and 270 give the
reflected/rotated corners. -/
def claimed_transform_coords (transform : Nat) (width height : Int)
    (r : PixBox) : Int × Int × Int × Int :=
  if transform = WL_OUTPUT_TRANSFORM_NORMAL then
    (r.x1, r.x2, r.y1, r.y2)
  else if transform = WL_OUTPUT_TRANSFORM_180 then
    (width - r.x2, width - r.x1, height - r.y2, height - r.y1)
  else if transform = WL_OUTPUT_TRANSFORM_90 then
    (height - r.y2, height - r.y1, r.x1, r.x2)
  else if transform = WL_OUTPUT_TRANSFORM_270 then
    (r.y1, r.y2, width - r.x2, width - r.x1)
  else
    (r.x1, r.x2, r.y1, r.y2)

/-! ### VT lifecycle state machine

Tokens (Nat) stand for the identities of the resources the C code
allocates: open file descriptors, mmap regions, pixman images and the
malloc'd shadow buffer.  `Counters.nextToken` supplies fresh tokens.
Fallible system calls consult the `Env` oracle at per-call-site counters.
Externally visible effects are appended to an event list. -/

/-- The value of output->fb: NULL, MAP_FAILED, or a live mapping. -/
inductive FbPtr
  | null
  | mapFailed
  | mapped (t : Nat)
deriving DecidableEq, Repr

/-- struct fbdev_output: the fields this module mutates.  The single
static weston_mode is carried inside fb_info (width/height/refresh are
copied from it); `renderer_state` models base.renderer_state != NULL. -/
structure FbdevOutput where
  device : String
  fb_info : ScreenInfo
  fb : FbPtr
  hw_surface : Option Nat
  shadow_surface : Option Nat
  shadow_buf : Option Nat
  renderer_state : Bool
  repaint_needed : Bool
deriving DecidableEq, Repr

/-- Externally visible effects of the lifecycle code. -/
inductive Event
  | openFB (fd : Nat)
  | openFail
  | closeFB (fd : Nat)
  | setModeCall (info : ScreenInfo) (ok : Bool)
  | mmapCall (t : Nat)
  | munmapCall (p : FbPtr)
  | unrefImage (t : Nat)
  | freeBuf (t : Nat)
  | freeOutput
  | seatDisableCall
  | seatEnableCall
  | damageAll
deriving DecidableEq, Repr

/-- Outcome of one open-and-query attempt (fbdev_frame_buffer_open):
open(2) fails; open succeeds but the ioctl query (or the pixel format)
fails; or both succeed yielding a ScreenInfo. -/
inductive OpenOutcome
  | noDevice
  | badQuery
  | ok (info : ScreenInfo)
deriving DecidableEq, Repr

/-- Oracle for the fallible external calls, consulted at per-call-site
counters. -/
structure Env where
  openR : Nat → OpenOutcome
  mmapOk : Nat → Bool
  hwCreateOk : Nat → Bool
  shadowAllocOk : Nat → Bool
  shadowCreateOk : Nat → Bool
  rendererOk : Nat → Bool
  setModeOk : Nat → Bool

/-- Allocation-token supply and per-call-site oracle counters. -/
structure Counters where
  nextToken : Nat
  openC : Nat
  mmapC : Nat
  hwC : Nat
  shadowAllocC : Nat
  shadowCreateC : Nat
  rendC : Nat
  setModeC : Nat
deriving DecidableEq, Repr

/-- Initial counters with the token supply starting at `k`. -/
def Counters.init (k : Nat) : Counters :=
  ⟨k, 0, 0, 0, 0, 0, 0, 0⟩

/-- fbdev_frame_buffer_open: open the device and query its screen info;
on a query failure the freshly opened descriptor is closed again. -/
def fbdev_frame_buffer_open (env : Env) (w : Counters) :
    Option (Nat × ScreenInfo) × Counters × List Event :=
  match env.openR w.openC with
  | .noDevice =>
      (none, { w with openC := w.openC + 1 }, [.openFail])
  | .badQuery =>
      let fd := w.nextToken
      (none, { w with openC := w.openC + 1, nextToken := w.nextToken + 1 },
       [.openFB fd, .closeFB fd])
  | .ok info =>
      let fd := w.nextToken
      (some (fd, info),
       { w with openC := w.openC + 1, nextToken := w.nextToken + 1 },
       [.openFB fd])

/-- fbdev_set_screen_info: force `info` (with the fixed ARGB layout)
back onto the device; returns 1 on success, -1 on ioctl failure. -/
def fbdev_set_screen_info (env : Env) (_fd : Nat) (info : ScreenInfo)
    (w : Counters) : Int × Counters × List Event :=
  let ok := env.setModeOk w.setModeC
  ((if ok then 1 else -1),
   { w with setModeC := w.setModeC + 1 },
   [.setModeCall info ok])

/-- fbdev_frame_buffer_destroy: munmap whatever output->fb holds (the
call is made even when fb is NULL; munmap then fails and is only logged)
and clear the pointer. -/
def fbdev_frame_buffer_destroy (o : FbdevOutput) :
    FbdevOutput × List Event :=
  ({ o with fb := .null }, [.munmapCall o.fb])

/-- fbdev_frame_buffer_map: mmap the device and wrap it in the hardware
surface.  On mmap failure output->fb is left holding MAP_FAILED and the
code jumps straight to out_close; on hardware-surface failure the fresh
mapping is destroyed; the descriptor is closed on every path. -/
def fbdev_frame_buffer_map (env : Env) (o : FbdevOutput) (fd : Nat)
    (w : Counters) : Int × FbdevOutput × Counters × List Event :=
  if env.mmapOk w.mmapC then
    let t := w.nextToken
    let w1 := { w with mmapC := w.mmapC + 1, nextToken := w.nextToken + 1 }
    let o1 := { o with fb := FbPtr.mapped t }
    if env.hwCreateOk w1.hwC then
      let h := w1.nextToken
      let w2 := { w1 with hwC := w1.hwC + 1, nextToken := w1.nextToken + 1 }
      (0, { o1 with hw_surface := some h }, w2,
       [.mmapCall t, .closeFB fd])
    else
      let w2 := { w1 with hwC := w1.hwC + 1 }
      let od := fbdev_frame_buffer_destroy { o1 with hw_surface := none }
      (-1, od.1, w2, [.mmapCall t] ++ od.2 ++ [.closeFB fd])
  else
    (-1, { o with fb := FbPtr.mapFailed },
     { w with mmapC := w.mmapC + 1 }, [.closeFB fd])

/-- The calloc'd fbdev_output before fbdev_output_create fills it in. -/
def zeroOutput (device : String) : FbdevOutput :=
  { device := device,
    fb_info := ⟨0, 0, 0, 0, 0, 0, 0, "", 0, 0⟩,
    fb := .null, hw_surface := none, shadow_surface := none,
    shadow_buf := none, renderer_state := false, repaint_needed := false }

/-- fbdev_output_create: open and query the device, map it, allocate the
shadow buffer and shadow surface, create the renderer state; on any
failure unwind through the goto chain and free the output. -/
def fbdev_output_create (env : Env) (device : String) (w : Counters) :
    Option FbdevOutput × Counters × List Event :=
  match fbdev_frame_buffer_open env w with
  | (none, w1, es1) => (none, w1, es1 ++ [.freeOutput])
  | (some (fd, info), w1, es1) =>
    match fbdev_frame_buffer_map env { zeroOutput device with fb_info := info } fd w1 with
    | (r, o2, w2, es2) =>
      if r < 0 then (none, w2, es1 ++ es2 ++ [.freeOutput])
      else
        let allocOk := env.shadowAllocOk w2.shadowAllocC
        let sb := w2.nextToken
        let w3 := if allocOk then
            { w2 with shadowAllocC := w2.shadowAllocC + 1,
                      nextToken := w2.nextToken + 1 }
          else { w2 with shadowAllocC := w2.shadowAllocC + 1 }
        let createOk := env.shadowCreateOk w3.shadowCreateC
        let ss := w3.nextToken
        let w4 := if createOk then
            { w3 with shadowCreateC := w3.shadowCreateC + 1,
                      nextToken := w3.nextToken + 1 }
          else { w3 with shadowCreateC := w3.shadowCreateC + 1 }
        let o4 := { o2 with shadow_buf := if allocOk then some sb else none,
                            shadow_surface := if createOk then some ss else none }
        if o4.shadow_buf = none ∨ o4.shadow_surface = none then
          -- goto out_hw_surface: free(shadow_buf), unref(hw_surface),
          -- weston_output_destroy, destroy frame buffer, free(output).
          (none, w4,
           es1 ++ es2 ++
             (match o4.shadow_buf with
              | some t => [Event.freeBuf t]
              | none => []) ++
             (match o4.hw_surface with
              | some h => [Event.unrefImage h]
              | none => []) ++
             [.munmapCall o4.fb, .freeOutput])
        else
          let rOk := env.rendererOk w4.rendC
          let w5 := { w4 with rendC := w4.rendC + 1 }
          if rOk then
            (some { o4 with renderer_state := true }, w5, es1 ++ es2)
          else
            -- goto out_shadow_surface, falling through out_hw_surface.
            (none, w5,
             es1 ++ es2 ++
               (match o4.shadow_surface with
                | some t => [Event.unrefImage t]
                | none => []) ++
               (match o4.shadow_buf with
                | some t => [Event.freeBuf t]
                | none => []) ++
               (match o4.hw_surface with
                | some h => [Event.unrefImage h]
                | none => []) ++
               [.munmapCall o4.fb, .freeOutput])

/-- fbdev_output_disable: unref the hardware surface when present, then
destroy the frame buffer mapping; fb_info is deliberately retained. -/
def fbdev_output_disable (o : FbdevOutput) : FbdevOutput × List Event :=
  let p := match o.hw_surface with
    | some h => (({ o with hw_surface := none } : FbdevOutput),
                 [Event.unrefImage h])
    | none => (o, [])
  let d := fbdev_frame_buffer_destroy p.1
  (d.1, p.2 ++ d.2)

/-- fbdev_output_destroy: disable, tear down the renderer state, unref
the shadow surface, free the shadow buffer, unlink and free the output. -/
def fbdev_output_destroy (o : FbdevOutput) : List Event :=
  let d := fbdev_output_disable o
  d.2 ++
    (match d.1.shadow_surface with
     | some s => [Event.unrefImage s]
     | none => []) ++
    (match d.1.shadow_buf with
     | some b => [Event.freeBuf b]
     | none => []) ++
    [.freeOutput]

/-- fbdev_output_reenable: re-open and re-query the device; on mode
drift, best-effort set_mode back to the cached mode (failure only
logged), then destroy and recreate the output (note: the fresh
descriptor is not closed on this path) and return 0; on an unchanged
mode, remap onto the existing output. -/
def fbdev_output_reenable (env : Env) (o : FbdevOutput) (w : Counters) :
    Int × Option FbdevOutput × Counters × List Event :=
  match fbdev_frame_buffer_open env w with
  | (none, w1, es1) => (-1, some o, w1, es1)
  | (some (fd, newInfo), w1, es1) =>
      if compare_screen_info o.fb_info newInfo ≠ 0 then
        let sm := fbdev_set_screen_info env fd o.fb_info w1
        let esD := fbdev_output_destroy o
        match fbdev_output_create env o.device sm.2.1 with
        | (newO, w3, esC) => (0, newO, w3, es1 ++ sm.2.2 ++ esD ++ esC)
      else
        match fbdev_frame_buffer_map env o fd w1 with
        | (r, o2, w2, es2) =>
            if r < 0 then (-1, some o2, w2, es1 ++ es2)
            else (0, some o2, w2, es1 ++ es2)

/-! ### VT lifecycle controller: vt_func -/

/-- Modelled from the spec: the "enter offscreen state" call of the host
compositor core (weston_compositor_offscreen, not part of src/) moves the
compositor's activity state to OFFSCREEN. -/
def WESTON_COMPOSITOR_OFFSCREEN : Nat := 2

/-- The backend state vt_func manipulates: output list, per-seat enabled
flags, focus, activity state and its snapshot. -/
structure Compositor where
  outputs : List FbdevOutput
  seats : List Bool
  focus : Bool
  state : Nat
  prev_state : Nat
deriving DecidableEq, Repr

/-- vt_func, TTY_LEAVE_VT case: disable every seat (udev_seat_disable is
modelled from the spec as marking the seat disabled), disable every
output, drop focus, snapshot the activity state, go offscreen, and clear
every output's repaint flag. -/
def vt_func_leave (c : Compositor) : Compositor × List Event :=
  let douts := c.outputs.map fbdev_output_disable
  ({ outputs := (douts.map Prod.fst).map
       (fun o => { o with repaint_needed := false }),
     seats := c.seats.map (fun _ => false),
     focus := false,
     state := WESTON_COMPOSITOR_OFFSCREEN,
     prev_state := c.state },
   c.seats.map (fun _ => Event.seatDisableCall) ++
     (douts.map Prod.snd).flatten)

/-- Reenable every output in order, threading the counters; an output
whose rebuild failed (reenable returned none) drops out of the list. -/
def reenableAll (env : Env) (outs : List FbdevOutput) (w : Counters) :
    List FbdevOutput × Counters × List Event :=
  match outs with
  | [] => ([], w, [])
  | o :: rest =>
      match fbdev_output_reenable env o w with
      | (_, o1?, w1, es1) =>
          match reenableAll env rest w1 with
          | (rest1, w2, es2) =>
              ((match o1? with
                | some o1 => [o1]
                | none => []) ++ rest1, w2, es1 ++ es2)

/-- vt_func, TTY_ENTER_VT case: restore focus and the snapshotted
activity state, reenable every output (return values ignored), damage
everything, re-enable every seat (udev_seat_enable modelled from the
spec as marking the seat enabled). -/
def vt_func_enter (env : Env) (c : Compositor) (w : Counters) :
    Compositor × Counters × List Event :=
  match reenableAll env c.outputs w with
  | (outs1, w1, esR) =>
      ({ outputs := outs1,
         seats := c.seats.map (fun _ => true),
         focus := true,
         state := c.prev_state,
         prev_state := c.prev_state },
       w1,
       esR ++ [Event.damageAll] ++ c.seats.map (fun _ => Event.seatEnableCall))

/-! ### Concrete instances used in counterexamples and witnesses -/

/-- An fb_var_screeninfo with every field zero. -/
def vsZero : fb_var_screeninfo :=
  ⟨0, 0, 0, 0, 0, 0, ⟨0, 0, 0⟩, ⟨0, 0, 0⟩, ⟨0, 0, 0⟩, ⟨0, 0, 0⟩, 0, 0, 0, 0, 0⟩

/-- A mode whose frame period (2^60 ps) exceeds 10^15, so the mHz
division truncates to zero. -/
def vsOverflowPeriod : fb_var_screeninfo :=
  { vsZero with yres := 1048576, xres := 1048576, pixclock := 1048576 }

/-- A 1x1 mode with an unreported pixel clock. -/
def vsZeroClock : fb_var_screeninfo :=
  { vsZero with yres := 1, xres := 1, pixclock := 0 }

/-- A 1x1 mode with pixel clock 1. -/
def vsUnitClock : fb_var_screeninfo :=
  { vsZero with yres := 1, xres := 1, pixclock := 1 }

/-- A 1x1 mode with pixel clock 2. -/
def vsTwoClock : fb_var_screeninfo :=
  { vsZero with yres := 1, xres := 1, pixclock := 2 }

/-- A packed true-color 32bpp ARGB-ordered descriptor whose alpha
channel has msb_right set (red/green/blue have it clear). -/
def vsAlphaMsbRight : fb_var_screeninfo :=
  { vsZero with
    bits_per_pixel := 32
    red := ⟨16, 8, 0⟩
    green := ⟨8, 8, 0⟩
    blue := ⟨0, 8, 0⟩
    transp := ⟨24, 8, 1⟩ }

/-- A packed true-color 32bpp x8r8g8b8 descriptor (zero-length alpha). -/
def vsArgb32 : fb_var_screeninfo :=
  { vsZero with
    bits_per_pixel := 32
    red := ⟨16, 8, 0⟩
    green := ⟨8, 8, 0⟩
    blue := ⟨0, 8, 0⟩
    transp := ⟨24, 0, 0⟩ }

/-- A packed true-color fb_fix_screeninfo. -/
def fsPacked : fb_fix_screeninfo :=
  ⟨FB_TYPE_PACKED_PIXELS, FB_VISUAL_TRUECOLOR, 8294400, 7680, "fb"⟩

/-- A 1920x1080 ScreenInfo. -/
def siBase : ScreenInfo :=
  ⟨1920, 1080, 520, 320, 32, 8294400, 7680, "fb0", 42, 60000⟩

/-- siBase with a different buffer_length only. -/
def siBufLen : ScreenInfo :=
  { siBase with buffer_length := 16588800 }

/-- A 1280x1024 ScreenInfo (differs from siBase in compared fields). -/
def siSmall : ScreenInfo :=
  ⟨1280, 1024, 520, 320, 32, 5242880, 5120, "fb0", 42, 60000⟩

/-- An oracle under which every call succeeds and every open yields
`i`. -/
def envAllOk (i : ScreenInfo) : Env :=
  ⟨fun _ => .ok i, fun _ => true, fun _ => true, fun _ => true,
   fun _ => true, fun _ => true, fun _ => true⟩

/-- An oracle under which open(2) always fails. -/
def envNoDevice : Env :=
  ⟨fun _ => .noDevice, fun _ => true, fun _ => true, fun _ => true,
   fun _ => true, fun _ => true, fun _ => true⟩

/-- A live output: device mapped, hardware and shadow surfaces present. -/
def outActive : FbdevOutput :=
  ⟨"/dev/fb0", siBase, .mapped 1, some 2, some 3, some 4, true, true⟩

/-- A suspended output: mapping and hardware surface released, shadow
surface retained, cached ScreenInfo retained. -/
def outSuspended : FbdevOutput :=
  ⟨"/dev/fb0", siBase, .null, none, some 3, some 4, true, false⟩

/-- A backend in the ACTIVE state with one output and two seats. -/
def compActive : Compositor :=
  ⟨[outActive], [true, true], true, 0, 0⟩

/-- A backend in the SUSPENDED state with one output and two seats. -/
def compSuspended : Compositor :=
  ⟨[outSuspended], [false, false], false, WESTON_COMPOSITOR_OFFSCREEN, 0⟩

/-! ### Theorems -/

/-- C4: for every damaged rectangle, fbdev_output_repaint composites it
from the shadow surface onto the hardware surface at exactly the
coordinates of the claimed transform table — normal gives (x1,x2,y1,y2),
180 gives (width-x2, width-x1, height-y2, height-y1), 90 gives
(height-y2, height-y1, x1, x2), 270 gives (y1, y2, width-x2, width-x1),
and any other transform value is treated as normal. -/
theorem repaint_composites_claimed_coords (transform : Nat)
    (width height : Int) (refresh : Nat) (damage : List PixBox) :
    (fbdev_output_repaint transform width height refresh damage).ops =
      damage.map (fun r =>
        let c := claimed_transform_coords transform width height r
        { src_x := c.1, src_y := c.2.2.1, dest_x := c.1, dest_y := c.2.2.1,
          width := c.2.1 - c.1, height := c.2.2.2 - c.2.2.1 }) := by
  have h : ∀ r, repaint_rect_coords transform width height r =
      claimed_transform_coords transform width height r := by
    intro r
    simp only [repaint_rect_coords, claimed_transform_coords,
      WL_OUTPUT_TRANSFORM_NORMAL, WL_OUTPUT_TRANSFORM_90,
      WL_OUTPUT_TRANSFORM_180, WL_OUTPUT_TRANSFORM_270]
    split_ifs <;> first | rfl | omega
  simp [fbdev_output_repaint, h]

/-- C5 counterexample: two ScreenInfo values that differ in
buffer_length (a field other than the identifier string) still compare
equal, so compare_screen_info does not test every field except the id. -/
theorem compare_screen_info_ignores_buffer_length :
    compare_screen_info siBase siBufLen = 0 ∧
    screeninfo_eq_except_id siBase siBufLen = false := by
  decide

/-- C5 amended: compare_screen_info reports equality exactly when the
two values agree on x/y resolution, physical size, bits per pixel, pixel
format and refresh rate — the identifier string and also buffer_length
and line_length are ignored; in particular it is reflexive and changing
only the id never makes two values compare unequal. -/
theorem compare_screen_info_spec (a b : ScreenInfo) :
    (compare_screen_info a b = 0 ↔
      (a.x_resolution = b.x_resolution ∧ a.y_resolution = b.y_resolution ∧
       a.width_mm = b.width_mm ∧ a.height_mm = b.height_mm ∧
       a.bits_per_pixel = b.bits_per_pixel ∧
       a.pixel_format = b.pixel_format ∧
       a.refresh_rate = b.refresh_rate)) ∧
    compare_screen_info a a = 0 ∧
    (∀ s, compare_screen_info a { a with id := s } = 0) := by
  refine ⟨?_, ?_, ?_⟩
  · unfold compare_screen_info
    split_ifs with h
    · simp [h]
    · simp only [h, iff_false]
      decide
  · simp [compare_screen_info]
  · intro s
    simp [compare_screen_info]

/-- C6 counterexample: the refresh estimate is not always positive (a
2^60 ps frame period yields 0 mHz) and is not non-increasing in the
pixel-clock period (clock 0 yields the 60000 default while clock 1
yields the 200000 cap). -/
theorem calculate_refresh_rate_not_positive_nor_monotone :
    calculate_refresh_rate vsOverflowPeriod = 0 ∧
    calculate_refresh_rate vsZeroClock = 60000 ∧
    calculate_refresh_rate vsUnitClock = 200000 ∧
    vsZeroClock.pixclock < vsUnitClock.pixclock := by
  decide

/-- C6 amended: the refresh estimate never exceeds 200000 mHz, equals
60000 mHz whenever the computed frame period is zero (e.g. pixel clock
unreported), is positive whenever the period is nonzero and at most
10^15, and — for fixed margins and resolution — is non-increasing in the
pixel-clock period over positive periods as long as the 64-bit period
product does not overflow. -/
theorem calculate_refresh_rate_spec (v w : fb_var_screeninfo) :
    calculate_refresh_rate v ≤ 200000 ∧
    (refresh_quot v = 0 → calculate_refresh_rate v = 60000) ∧
    (0 < refresh_quot v → refresh_quot v ≤ 1000000000000000 →
      0 < calculate_refresh_rate v) ∧
    (w.upper_margin = v.upper_margin → w.lower_margin = v.lower_margin →
     w.yres = v.yres → w.left_margin = v.left_margin →
     w.right_margin = v.right_margin → w.xres = v.xres →
     0 < v.pixclock → v.pixclock ≤ w.pixclock → w.pixclock < 2 ^ 32 →
     (v.upper_margin + v.lower_margin + v.yres) % 2 ^ 32 *
         ((v.left_margin + v.right_margin + v.xres) % 2 ^ 32) *
         w.pixclock < 2 ^ 64 →
     calculate_refresh_rate w ≤ calculate_refresh_rate v) := by
  refine ⟨?_, ?_, ?_, ?_⟩
  · simp only [calculate_refresh_rate]
    split_ifs with h1 h2
    · exact le_refl _
    · exact Nat.le_of_not_lt h2
    · norm_num
  · intro h
    simp [calculate_refresh_rate, h]
  · intro h1 h2
    simp only [calculate_refresh_rate]
    rw [if_pos h1]
    split_ifs with h3
    · norm_num
    · exact Nat.div_pos h2 h1
  · intro h1 h2 h3 h4 h5 h6 hp hle h32 hovf
    have hA : (v.upper_margin + v.lower_margin + v.yres) % 2 ^ 32 < 2 ^ 32 :=
      Nat.mod_lt _ (by norm_num)
    have hB : (v.left_margin + v.right_margin + v.xres) % 2 ^ 32 < 2 ^ 32 :=
      Nat.mod_lt _ (by norm_num)
    set A := (v.upper_margin + v.lower_margin + v.yres) % 2 ^ 32 with hAdef
    set B := (v.left_margin + v.right_margin + v.xres) % 2 ^ 32 with hBdef
    have hAB : A * B < 2 ^ 64 := by
      calc A * B < 2 ^ 32 * 2 ^ 32 := Nat.mul_lt_mul'' hA hB
        _ = 2 ^ 64 := by norm_num
    have hqv : refresh_quot v = A * B * v.pixclock := by
      unfold refresh_quot
      rw [← hAdef, ← hBdef, Nat.mod_eq_of_lt hAB,
        Nat.mod_eq_of_lt (lt_of_le_of_lt hle h32),
        Nat.mod_eq_of_lt (lt_of_le_of_lt
          (Nat.mul_le_mul_left (A * B) hle) hovf)]
    have hqw : refresh_quot w = A * B * w.pixclock := by
      unfold refresh_quot
      rw [h1, h2, h3, h4, h5, h6, ← hAdef, ← hBdef,
        Nat.mod_eq_of_lt hAB, Nat.mod_eq_of_lt h32,
        Nat.mod_eq_of_lt hovf]
    rcases Nat.eq_zero_or_pos (A * B) with hz | hpos
    · simp only [calculate_refresh_rate]
      rw [hqv, hqw, hz]
      simp
    · have hqvpos : 0 < refresh_quot v := by
        rw [hqv]; exact Nat.mul_pos hpos hp
      have hqwpos : 0 < refresh_quot w := by
        rw [hqw]; exact Nat.mul_pos hpos (lt_of_lt_of_le hp hle)
      have hdiv : 1000000000000000 / refresh_quot w ≤
          1000000000000000 / refresh_quot v := by
        apply Nat.div_le_div_left _ hqvpos
        rw [hqv, hqw]
        exact Nat.mul_le_mul_left (A * B) hle
      simp only [calculate_refresh_rate]
      rw [if_pos hqvpos, if_pos hqwpos]
      by_cases hcv : 1000000000000000 / refresh_quot v > 200000
      · rw [if_pos hcv]
        split_ifs with hcw
        · exact le_refl _
        · exact Nat.le_of_not_lt hcw
      · rw [if_neg hcv]
        rw [if_neg (Nat.not_lt.mpr (le_trans hdiv (Nat.le_of_not_lt hcv)))]
        exact hdiv

/-- C6 witness: the amended monotonicity and positivity at concrete
inputs — doubling the pixel clock from 1 to 2 does not increase the
estimate, and a 1x1 mode with clock 1 has a positive estimate. -/
theorem calculate_refresh_rate_spec_witness :
    calculate_refresh_rate vsTwoClock ≤ calculate_refresh_rate vsUnitClock ∧
    0 < calculate_refresh_rate vsUnitClock :=
  ⟨(calculate_refresh_rate_spec vsUnitClock vsTwoClock).2.2.2
      rfl rfl rfl rfl rfl rfl (by decide) (by decide) (by decide) (by decide),
   (calculate_refresh_rate_spec vsUnitClock vsUnitClock).2.2.1
      (by decide) (by decide)⟩

/-- C9 counterexample: the timestamp handed to the host is a uint32_t,
so for the wall-clock time 1700000000s it is not the number of
milliseconds since the epoch. -/
theorem finish_frame_timestamp_truncated :
    (finish_frame_handler 1700000000 500000).1 ≠
      claimed_msec_since_epoch 1700000000 500000 := by
  decide

/-- C9 amended: after every repaint the finish-frame timer is armed with
1000000 / refresh_mHz milliseconds, and the timer handler reports the
gettimeofday wall-clock milliseconds truncated to 32 bits and always
returns the reschedule value 1. -/
theorem repaint_timer_and_finish_frame_spec (transform : Nat)
    (width height : Int) (refresh : Nat) (damage : List PixBox)
    (tv_sec tv_usec : Nat) :
    (fbdev_output_repaint transform width height refresh damage).timer_delay_ms
        = 1000000 / refresh ∧
    (finish_frame_handler tv_sec tv_usec).1 =
      claimed_msec_since_epoch tv_sec tv_usec % 2 ^ 32 ∧
    (finish_frame_handler tv_sec tv_usec).2 = 1 :=
  ⟨rfl, rfl, rfl⟩

/-- Helper: a built ARGB format is never the sentinel 0 (bit 17 of the
type field survives the 32-bit truncation). -/
theorem PIXMAN_FORMAT_argb_ne_zero (bpp a r g b : Nat) :
    PIXMAN_FORMAT bpp PIXMAN_TYPE_ARGB a r g b ≠ 0 := by
  intro h
  have ht : Nat.testBit (PIXMAN_FORMAT bpp PIXMAN_TYPE_ARGB a r g b) 17
      = true := by
    unfold PIXMAN_FORMAT PIXMAN_TYPE_ARGB
    rw [Nat.testBit_mod_two_pow]
    simp only [Nat.testBit_lor]
    rw [show Nat.testBit (2 <<< 16) 17 = true from by decide]
    simp
  rw [h] at ht
  simp at ht

/-- Helper: a built RGBA format is never the sentinel 0 (bit 16 of the
type field survives the 32-bit truncation). -/
theorem PIXMAN_FORMAT_rgba_ne_zero (bpp a r g b : Nat) :
    PIXMAN_FORMAT bpp PIXMAN_TYPE_RGBA a r g b ≠ 0 := by
  intro h
  have ht : Nat.testBit (PIXMAN_FORMAT bpp PIXMAN_TYPE_RGBA a r g b) 16
      = true := by
    unfold PIXMAN_FORMAT PIXMAN_TYPE_RGBA
    rw [Nat.testBit_mod_two_pow]
    simp only [Nat.testBit_lor]
    rw [show Nat.testBit (9 <<< 16) 16 = true from by decide]
    simp
  rw [h] at ht
  simp at ht

/-- Helper: the resolved format when every support check passes and the
ARGB ordering matches. -/
theorem calculate_pixman_format_argb (v : fb_var_screeninfo)
    (f : fb_fix_screeninfo)
    (h1 : f.type = FB_TYPE_PACKED_PIXELS)
    (h2 : f.visual = FB_VISUAL_TRUECOLOR) (h3 : v.grayscale = 0)
    (h4 : v.red.msb_right = 0) (h5 : v.green.msb_right = 0)
    (h6 : v.blue.msb_right = 0) (ha : argb_ordered v = true) :
    calculate_pixman_format v f =
      PIXMAN_FORMAT v.bits_per_pixel PIXMAN_TYPE_ARGB v.transp.length
        v.red.length v.green.length v.blue.length := by
  unfold calculate_pixman_format
  rw [if_neg (by simp [h1]), if_neg (by simp [h2, h3]),
    if_neg (by simp [h4, h5, h6])]
  simp [ha, PIXMAN_TYPE_ARGB, PIXMAN_TYPE_OTHER]

/-- Helper: the resolved format when every support check passes, the
ARGB ordering fails and the RGBA ordering matches. -/
theorem calculate_pixman_format_rgba (v : fb_var_screeninfo)
    (f : fb_fix_screeninfo)
    (h1 : f.type = FB_TYPE_PACKED_PIXELS)
    (h2 : f.visual = FB_VISUAL_TRUECOLOR) (h3 : v.grayscale = 0)
    (h4 : v.red.msb_right = 0) (h5 : v.green.msb_right = 0)
    (h6 : v.blue.msb_right = 0) (ha : argb_ordered v = false)
    (hr : rgba_ordered v = true) :
    calculate_pixman_format v f =
      PIXMAN_FORMAT v.bits_per_pixel PIXMAN_TYPE_RGBA v.transp.length
        v.red.length v.green.length v.blue.length := by
  unfold calculate_pixman_format
  rw [if_neg (by simp [h1]), if_neg (by simp [h2, h3]),
    if_neg (by simp [h4, h5, h6])]
  simp [ha, hr, PIXMAN_TYPE_RGBA, PIXMAN_TYPE_OTHER]

/-- Helper: the sentinel when every support check passes but neither
channel ordering matches. -/
theorem calculate_pixman_format_unordered (v : fb_var_screeninfo)
    (f : fb_fix_screeninfo)
    (h1 : f.type = FB_TYPE_PACKED_PIXELS)
    (h2 : f.visual = FB_VISUAL_TRUECOLOR) (h3 : v.grayscale = 0)
    (h4 : v.red.msb_right = 0) (h5 : v.green.msb_right = 0)
    (h6 : v.blue.msb_right = 0) (ha : argb_ordered v = false)
    (hr : rgba_ordered v = false) :
    calculate_pixman_format v f = 0 := by
  unfold calculate_pixman_format
  rw [if_neg (by simp [h1]), if_neg (by simp [h2, h3]),
    if_neg (by simp [h4, h5, h6])]
  simp [ha, hr, PIXMAN_TYPE_OTHER]

/-- C3 counterexample: a packed true-color ARGB descriptor whose alpha
channel has msb_right set is still resolved to a format (the code only
checks red, green and blue), while the claim places every descriptor
with any msb_right-set channel in the unsupported set. -/
theorem calculate_pixman_format_ignores_transp_msb_right :
    calculate_pixman_format vsAlphaMsbRight fsPacked ≠ 0 ∧
    vsAlphaMsbRight.transp.msb_right ≠ 0 := by
  decide

/-- C3 amended: the resolver returns the sentinel 0 exactly for
descriptors that are non-packed, non-true-color, grayscale, have the
red, green or blue channel with msb_right nonzero (alpha's msb_right is
not examined), or match neither the ARGB nor the RGBA channel ordering;
otherwise it returns PIXMAN_FORMAT of the total bits per pixel, the
recognised type (ARGB preferred when both orderings match), and the
per-channel alpha/red/green/blue bit lengths — never a garbage format. -/
theorem calculate_pixman_format_spec (v : fb_var_screeninfo)
    (f : fb_fix_screeninfo) :
    (calculate_pixman_format v f = 0 ↔
      (f.type ≠ FB_TYPE_PACKED_PIXELS ∨ f.visual ≠ FB_VISUAL_TRUECOLOR ∨
       v.grayscale ≠ 0 ∨ v.red.msb_right ≠ 0 ∨ v.green.msb_right ≠ 0 ∨
       v.blue.msb_right ≠ 0 ∨
       (argb_ordered v = false ∧ rgba_ordered v = false))) ∧
    (f.type = FB_TYPE_PACKED_PIXELS → f.visual = FB_VISUAL_TRUECOLOR →
     v.grayscale = 0 → v.red.msb_right = 0 → v.green.msb_right = 0 →
     v.blue.msb_right = 0 →
     (argb_ordered v = true →
       calculate_pixman_format v f =
         PIXMAN_FORMAT v.bits_per_pixel PIXMAN_TYPE_ARGB v.transp.length
           v.red.length v.green.length v.blue.length) ∧
     (argb_ordered v = false → rgba_ordered v = true →
       calculate_pixman_format v f =
         PIXMAN_FORMAT v.bits_per_pixel PIXMAN_TYPE_RGBA v.transp.length
           v.red.length v.green.length v.blue.length)) := by
  constructor
  · by_cases h1 : f.type ≠ FB_TYPE_PACKED_PIXELS
    · have hz : calculate_pixman_format v f = 0 := by
        unfold calculate_pixman_format
        rw [if_pos h1]
      exact ⟨fun _ => Or.inl h1, fun _ => hz⟩
    · by_cases h2 : f.visual ≠ FB_VISUAL_TRUECOLOR ∨ v.grayscale ≠ 0
      · have hz : calculate_pixman_format v f = 0 := by
          unfold calculate_pixman_format
          rw [if_neg h1, if_pos h2]
        refine ⟨fun _ => ?_, fun _ => hz⟩
        rcases h2 with h2 | h2
        · exact Or.inr (Or.inl h2)
        · exact Or.inr (Or.inr (Or.inl h2))
      · by_cases h3 : v.red.msb_right ≠ 0 ∨ v.green.msb_right ≠ 0 ∨
            v.blue.msb_right ≠ 0
        · have hz : calculate_pixman_format v f = 0 := by
            unfold calculate_pixman_format
            rw [if_neg h1, if_neg h2, if_pos h3]
          refine ⟨fun _ => ?_, fun _ => hz⟩
          rcases h3 with h3 | h3 | h3
          · exact Or.inr (Or.inr (Or.inr (Or.inl h3)))
          · exact Or.inr (Or.inr (Or.inr (Or.inr (Or.inl h3))))
          · exact Or.inr (Or.inr (Or.inr (Or.inr (Or.inr (Or.inl h3)))))
        · push_neg at h1 h2 h3
          cases hab : argb_ordered v with
          | true =>
            rw [calculate_pixman_format_argb v f h1 h2.1 h2.2 h3.1 h3.2.1
              h3.2.2 hab]
            constructor
            · intro h0
              exact absurd h0 (PIXMAN_FORMAT_argb_ne_zero v.bits_per_pixel
                v.transp.length v.red.length v.green.length v.blue.length)
            · intro hc
              exfalso
              rcases hc with hc | hc | hc | hc | hc | hc | hc
              · exact hc h1
              · exact hc h2.1
              · exact hc h2.2
              · exact hc h3.1
              · exact hc h3.2.1
              · exact hc h3.2.2
              · simp at hc
          | false =>
            cases hrb : rgba_ordered v with
            | true =>
              rw [calculate_pixman_format_rgba v f h1 h2.1 h2.2 h3.1 h3.2.1
                h3.2.2 hab hrb]
              constructor
              · intro h0
                exact absurd h0 (PIXMAN_FORMAT_rgba_ne_zero v.bits_per_pixel
                  v.transp.length v.red.length v.green.length v.blue.length)
              · intro hc
                exfalso
                rcases hc with hc | hc | hc | hc | hc | hc | hc
                · exact hc h1
                · exact hc h2.1
                · exact hc h2.2
                · exact hc h3.1
                · exact hc h3.2.1
                · exact hc h3.2.2
                · simp at hc
            | false =>
              rw [calculate_pixman_format_unordered v f h1 h2.1 h2.2 h3.1
                h3.2.1 h3.2.2 hab hrb]
              exact ⟨fun _ => Or.inr (Or.inr (Or.inr (Or.inr (Or.inr
                (Or.inr ⟨rfl, rfl⟩))))), fun _ => rfl⟩
  · intro h1 h2 h3 h4 h5 h6
    exact ⟨calculate_pixman_format_argb v f h1 h2 h3 h4 h5 h6,
           calculate_pixman_format_rgba v f h1 h2 h3 h4 h5 h6⟩

/-- C3 witness: the amended format-building branch at a concrete packed
true-color x8r8g8b8 descriptor. -/
theorem calculate_pixman_format_spec_witness :
    calculate_pixman_format vsArgb32 fsPacked =
      PIXMAN_FORMAT vsArgb32.bits_per_pixel PIXMAN_TYPE_ARGB
        vsArgb32.transp.length vsArgb32.red.length vsArgb32.green.length
        vsArgb32.blue.length :=
  ((calculate_pixman_format_spec vsArgb32 fsPacked).2
      rfl rfl rfl rfl rfl rfl).1 (by decide)

/-- C1: on VT re-entry with a changed ScreenInfo, fbdev_output_reenable
first calls set_mode with the cached (old) mode — succeeding or failing
(the env.setModeOk value is arbitrary) — then destroys the output (the
old shadow surface and shadow buffer are unreffed/freed) and recreates
it fresh under the same device path, backed by the freshly queried mode
and a brand-new shadow surface; the call returns 0, so mode drift is
never fatal. -/
theorem reenable_rebuilds_output_on_mode_drift
    (env : Env) (o : FbdevOutput) (k : Nat) (n1 n2 : ScreenInfo)
    (s sb : Nat)
    (hopen1 : env.openR 0 = .ok n1)
    (hdrift : compare_screen_info o.fb_info n1 ≠ 0)
    (hopen2 : env.openR 1 = .ok n2)
    (hmmap : env.mmapOk 0 = true)
    (hhw : env.hwCreateOk 0 = true)
    (halloc : env.shadowAllocOk 0 = true)
    (hscreate : env.shadowCreateOk 0 = true)
    (hrend : env.rendererOk 0 = true)
    (hfb : o.fb = FbPtr.null)
    (hhws : o.hw_surface = none)
    (hss : o.shadow_surface = some s)
    (hsb : o.shadow_buf = some sb)
    (hks : s < k) (hkb : sb < k) :
    fbdev_output_reenable env o (Counters.init k) =
      (0,
       some { device := o.device, fb_info := n2, fb := FbPtr.mapped (k + 2),
              hw_surface := some (k + 3), shadow_surface := some (k + 5),
              shadow_buf := some (k + 4), renderer_state := true,
              repaint_needed := false },
       ⟨k + 6, 2, 1, 1, 1, 1, 1, 1⟩,
       [.openFB k, .setModeCall o.fb_info (env.setModeOk 0),
        .munmapCall FbPtr.null, .unrefImage s, .freeBuf sb, .freeOutput,
        .openFB (k + 1), .mmapCall (k + 2), .closeFB (k + 1)]) ∧
    s ≠ k + 5 ∧ sb ≠ k + 4 := by
  refine ⟨?_, by omega, by omega⟩
  simp only [fbdev_output_reenable, fbdev_frame_buffer_open,
    fbdev_set_screen_info, fbdev_output_destroy, fbdev_output_disable,
    fbdev_frame_buffer_destroy, fbdev_output_create,
    fbdev_frame_buffer_map, zeroOutput, Counters.init,
    hopen1, hopen2, hmmap, hhw, halloc, hscreate, hrend,
    hfb, hhws, hss, hsb]
  rw [if_pos hdrift]
  simp [hopen2, hmmap, hhw, halloc, hscreate, hrend]

/-- C1 witness: the mode-drift rebuild at a concrete suspended output
cached at 1920x1080 when the device reports 1280x1024. -/
theorem reenable_rebuilds_output_on_mode_drift_witness :
    fbdev_output_reenable (envAllOk siSmall) outSuspended
        (Counters.init 10) =
      (0,
       some { device := "/dev/fb0", fb_info := siSmall,
              fb := FbPtr.mapped 12, hw_surface := some 13,
              shadow_surface := some 15, shadow_buf := some 14,
              renderer_state := true, repaint_needed := false },
       ⟨16, 2, 1, 1, 1, 1, 1, 1⟩,
       [.openFB 10, .setModeCall siBase true, .munmapCall FbPtr.null,
        .unrefImage 3, .freeBuf 4, .freeOutput, .openFB 11, .mmapCall 12,
        .closeFB 11]) ∧
    (3 : Nat) ≠ 15 ∧ (4 : Nat) ≠ 14 :=
  reenable_rebuilds_output_on_mode_drift (envAllOk siSmall) outSuspended 10
    siSmall siSmall 3 4 rfl (by decide) rfl rfl rfl rfl rfl rfl rfl rfl
    rfl rfl (by decide) (by decide)

/-- C2: a VT Leave followed by a VT Enter whose re-queried ScreenInfo
compares equal to the cached one keeps the existing output — only the
device mapping and hardware surface are reopened (fresh tokens), the
shadow surface and shadow buffer fields are untouched, and across the
whole cycle nothing is freed, no output is destroyed, and no image other
than the old hardware surface is unreffed. -/
theorem vt_cycle_unchanged_mode_keeps_output
    (env : Env) (c : Compositor) (o : FbdevOutput) (k : Nat)
    (n : ScreenInfo) (m hh : Nat)
    (houts : c.outputs = [o])
    (hfb : o.fb = FbPtr.mapped m)
    (hhw : o.hw_surface = some hh)
    (hopen : env.openR 0 = .ok n)
    (hsame : compare_screen_info o.fb_info n = 0)
    (hmmap : env.mmapOk 0 = true)
    (hhwc : env.hwCreateOk 0 = true) :
    (vt_func_enter env (vt_func_leave c).1 (Counters.init k)).1.outputs =
      [{ o with fb := FbPtr.mapped (k + 1), hw_surface := some (k + 2),
                repaint_needed := false }] ∧
    (∀ t, Event.freeBuf t ∉
      (vt_func_leave c).2 ++
        (vt_func_enter env (vt_func_leave c).1 (Counters.init k)).2.2) ∧
    (∀ t, t ≠ hh → Event.unrefImage t ∉
      (vt_func_leave c).2 ++
        (vt_func_enter env (vt_func_leave c).1 (Counters.init k)).2.2) ∧
    Event.freeOutput ∉
      (vt_func_leave c).2 ++
        (vt_func_enter env (vt_func_leave c).1 (Counters.init k)).2.2 := by
  have hL : vt_func_leave c =
      ({ outputs := [{ o with hw_surface := none, fb := FbPtr.null,
                              repaint_needed := false }],
         seats := c.seats.map (fun _ => false),
         focus := false,
         state := WESTON_COMPOSITOR_OFFSCREEN,
         prev_state := c.state },
       c.seats.map (fun _ => Event.seatDisableCall) ++
         [.unrefImage hh, .munmapCall (FbPtr.mapped m)]) := by
    simp [vt_func_leave, houts, fbdev_output_disable,
      fbdev_frame_buffer_destroy, hhw, hfb]
  have hsame2 : compare_screen_info
      ({ o with hw_surface := none, fb := FbPtr.null,
                repaint_needed := false } : FbdevOutput).fb_info n = 0 := hsame
  have hE : vt_func_enter env (vt_func_leave c).1 (Counters.init k) =
      ({ outputs := [{ o with fb := FbPtr.mapped (k + 1),
                              hw_surface := some (k + 2),
                              repaint_needed := false }],
         seats := c.seats.map (fun _ => false) |>.map (fun _ => true),
         focus := true,
         state := c.state,
         prev_state := c.state },
       ⟨k + 3, 1, 1, 1, 0, 0, 0, 0⟩,
       [.openFB k, .mmapCall (k + 1), .closeFB k, .damageAll] ++
         (c.seats.map (fun _ => false) |>.map
           (fun _ => Event.seatEnableCall))) := by
    rw [hL]
    simp only [vt_func_enter, reenableAll, fbdev_output_reenable,
      fbdev_frame_buffer_open, fbdev_frame_buffer_map, Counters.init,
      hopen, hmmap, hhwc]
    rw [if_neg (by simp [hsame2])]
    simp [hmmap, hhwc]
  refine ⟨?_, ?_, ?_, ?_⟩
  · rw [hE]
  · intro t
    rw [hE, hL]
    simp
  · intro t ht
    rw [hE, hL]
    simp [ht]
  · rw [hE, hL]
    simp

/-- C2 witness: the unchanged-mode VT cycle at a concrete active
backend; the shadow surface token 3 and shadow buffer token 4 survive. -/
theorem vt_cycle_unchanged_mode_keeps_output_witness :
    (vt_func_enter (envAllOk siBase) (vt_func_leave compActive).1
        (Counters.init 10)).1.outputs =
      [{ outActive with fb := FbPtr.mapped 11, hw_surface := some 12,
                        repaint_needed := false }] ∧
    (∀ t, Event.freeBuf t ∉
      (vt_func_leave compActive).2 ++
        (vt_func_enter (envAllOk siBase) (vt_func_leave compActive).1
          (Counters.init 10)).2.2) ∧
    (∀ t, t ≠ 2 → Event.unrefImage t ∉
      (vt_func_leave compActive).2 ++
        (vt_func_enter (envAllOk siBase) (vt_func_leave compActive).1
          (Counters.init 10)).2.2) ∧
    Event.freeOutput ∉
      (vt_func_leave compActive).2 ++
        (vt_func_enter (envAllOk siBase) (vt_func_leave compActive).1
          (Counters.init 10)).2.2 :=
  vt_cycle_unchanged_mode_keeps_output (envAllOk siBase) compActive
    outActive 10 siBase 1 2 rfl rfl rfl rfl (by decide) rfl rfl

/-- C7: a second VT Leave without an intervening Enter is harmless: the
output list, seat flags, focus and activity state are exactly those after
the first Leave; the second Leave never munmaps a live mapping and never
unrefs any image (so nothing is freed or disabled twice); after the first
Leave every output is suspended (mapping NULL, hardware surface absent,
repaint flag clear) and every seat is disabled. -/
theorem vt_leave_idempotent (c : Compositor) :
    (vt_func_leave (vt_func_leave c).1).1.outputs =
      (vt_func_leave c).1.outputs ∧
    (vt_func_leave (vt_func_leave c).1).1.seats = (vt_func_leave c).1.seats ∧
    (vt_func_leave (vt_func_leave c).1).1.focus = (vt_func_leave c).1.focus ∧
    (vt_func_leave (vt_func_leave c).1).1.state = (vt_func_leave c).1.state ∧
    (∀ t, Event.munmapCall (FbPtr.mapped t) ∉
      (vt_func_leave (vt_func_leave c).1).2) ∧
    (∀ t, Event.unrefImage t ∉ (vt_func_leave (vt_func_leave c).1).2) ∧
    (∀ o ∈ (vt_func_leave c).1.outputs,
      o.fb = FbPtr.null ∧ o.hw_surface = none ∧ o.repaint_needed = false) ∧
    (∀ b ∈ (vt_func_leave c).1.seats, b = false) := by
  have hdis : ∀ o : FbdevOutput, (fbdev_output_disable o).1 =
      { o with hw_surface := none, fb := FbPtr.null } := by
    intro o
    obtain ⟨d, i, f, hw, ss, sb, rs, rp⟩ := o
    cases hw <;> rfl
  have hdis2 : ∀ o : FbdevOutput,
      (fbdev_output_disable
        { o with hw_surface := none, fb := FbPtr.null,
                 repaint_needed := false }).2 =
        [Event.munmapCall FbPtr.null] := by
    intro o
    rfl
  refine ⟨?_, ?_, ?_, ?_, ?_, ?_, ?_, ?_⟩
  · simp only [vt_func_leave, List.map_map]
    apply List.map_congr_left
    intro o _
    simp [Function.comp_apply, hdis]
  · simp only [vt_func_leave, List.map_map]
    rfl
  · rfl
  · rfl
  · intro t
    simp only [vt_func_leave, List.map_map, List.mem_append,
      List.mem_map, List.mem_flatten]
    rintro (⟨b, hb, hcontra⟩ | ⟨es, ⟨o1, ho1, hes⟩, hmem⟩)
    · exact Event.noConfusion hcontra
    · rw [← hes] at hmem
      simp only [Function.comp_apply, hdis, hdis2] at hmem
      rw [List.mem_singleton] at hmem
      injection hmem with h
      exact FbPtr.noConfusion h
  · intro t
    simp only [vt_func_leave, List.map_map, List.mem_append,
      List.mem_map, List.mem_flatten]
    rintro (⟨b, hb, hcontra⟩ | ⟨es, ⟨o1, ho1, hes⟩, hmem⟩)
    · exact Event.noConfusion hcontra
    · rw [← hes] at hmem
      simp only [Function.comp_apply, hdis, hdis2] at hmem
      rw [List.mem_singleton] at hmem
      exact Event.noConfusion hmem
  · intro o ho
    simp only [vt_func_leave, List.map_map, List.mem_map] at ho
    obtain ⟨o1, _, ho1⟩ := ho
    rw [← ho1]
    simp [Function.comp_apply, hdis]
  · intro b hb
    simp only [vt_func_leave, List.mem_map] at hb
    obtain ⟨x, _, hx⟩ := hb
    exact hx.symm

/-- C7 witness: double VT Leave at a concrete active backend — the
output lists agree, the suspended output is indeed unmapped with its
repaint flag clear, and the second Leave does not munmap the live
mapping token 1. -/
theorem vt_leave_idempotent_witness :
    (vt_func_leave (vt_func_leave compActive).1).1.outputs =
      (vt_func_leave compActive).1.outputs ∧
    (({ outActive with hw_surface := none, fb := FbPtr.null,
                       repaint_needed := false } : FbdevOutput).fb =
        FbPtr.null ∧
      ({ outActive with hw_surface := none, fb := FbPtr.null,
                        repaint_needed := false } : FbdevOutput).hw_surface =
        none ∧
      ({ outActive with hw_surface := none, fb := FbPtr.null,
                        repaint_needed := false } :
          FbdevOutput).repaint_needed = false) ∧
    Event.munmapCall (FbPtr.mapped 1) ∉
      (vt_func_leave (vt_func_leave compActive).1).2 :=
  ⟨(vt_leave_idempotent compActive).1,
   (vt_leave_idempotent compActive).2.2.2.2.2.2.1
     { outActive with hw_surface := none, fb := FbPtr.null,
                      repaint_needed := false } (by decide),
   (vt_leave_idempotent compActive).2.2.2.2.1 1⟩

/-- C10: when re-enabling the only output fails during VT Enter — the
device cannot be opened or queried, or (on the unchanged-mode path) the
mmap fails — the controller ignores the error: the output stays in the
output list with no live mapping and no hardware surface, its cached
ScreenInfo and shadow fields intact, and the controller still damages
everything and re-enables every seat. -/
theorem vt_enter_failure_keeps_output_and_proceeds
    (env : Env) (c : Compositor) (o : FbdevOutput) (k : Nat)
    (houts : c.outputs = [o])
    (hfb : o.fb = FbPtr.null)
    (hhw : o.hw_surface = none)
    (hcase : env.openR 0 = .noDevice ∨ env.openR 0 = .badQuery ∨
      ∃ n, env.openR 0 = .ok n ∧ compare_screen_info o.fb_info n = 0 ∧
        env.mmapOk 0 = false) :
    ∃ o1, (vt_func_enter env c (Counters.init k)).1.outputs = [o1] ∧
      o1.fb_info = o.fb_info ∧
      (∀ t, o1.fb ≠ FbPtr.mapped t) ∧
      o1.hw_surface = none ∧
      o1.shadow_surface = o.shadow_surface ∧
      o1.shadow_buf = o.shadow_buf ∧
      Event.damageAll ∈ (vt_func_enter env c (Counters.init k)).2.2 ∧
      (vt_func_enter env c (Counters.init k)).1.seats =
        c.seats.map (fun _ => true) ∧
      (vt_func_enter env c (Counters.init k)).1.focus = true := by
  rcases hcase with hc | hc | ⟨n, hc, hsame, hmm⟩
  · refine ⟨o, ?_, rfl, ?_, hhw, rfl, rfl, ?_, rfl, rfl⟩
    · simp [vt_func_enter, reenableAll, fbdev_output_reenable,
        fbdev_frame_buffer_open, Counters.init, houts, hc]
    · intro t
      rw [hfb]
      exact FbPtr.noConfusion
    · simp [vt_func_enter, reenableAll, fbdev_output_reenable,
        fbdev_frame_buffer_open, Counters.init, houts, hc]
  · refine ⟨o, ?_, rfl, ?_, hhw, rfl, rfl, ?_, rfl, rfl⟩
    · simp [vt_func_enter, reenableAll, fbdev_output_reenable,
        fbdev_frame_buffer_open, Counters.init, houts, hc]
    · intro t
      rw [hfb]
      exact FbPtr.noConfusion
    · simp [vt_func_enter, reenableAll, fbdev_output_reenable,
        fbdev_frame_buffer_open, Counters.init, houts, hc]
  · have hre : fbdev_output_reenable env o (Counters.init k) =
        (-1, some { o with fb := FbPtr.mapFailed },
         ⟨k + 1, 1, 1, 0, 0, 0, 0, 0⟩, [.openFB k, .closeFB k]) := by
      simp only [fbdev_output_reenable, fbdev_frame_buffer_open,
        fbdev_frame_buffer_map, Counters.init, hc, hmm]
      rw [if_neg (by simp [hsame])]
      simp [hmm]
    refine ⟨{ o with fb := FbPtr.mapFailed }, ?_, rfl, ?_, hhw, rfl, rfl,
      ?_, rfl, rfl⟩
    · simp [vt_func_enter, reenableAll, houts, hre]
    · intro t
      exact FbPtr.noConfusion
    · simp [vt_func_enter, reenableAll, houts, hre]

/-- C10 witness: a concrete suspended single-output backend whose device
has disappeared at VT Enter. -/
theorem vt_enter_failure_keeps_output_and_proceeds_witness :
    ∃ o1, (vt_func_enter envNoDevice compSuspended
        (Counters.init 0)).1.outputs = [o1] ∧
      o1.fb_info = outSuspended.fb_info ∧
      (∀ t, o1.fb ≠ FbPtr.mapped t) ∧
      o1.hw_surface = none ∧
      o1.shadow_surface = outSuspended.shadow_surface ∧
      o1.shadow_buf = outSuspended.shadow_buf ∧
      Event.damageAll ∈ (vt_func_enter envNoDevice compSuspended
        (Counters.init 0)).2.2 ∧
      (vt_func_enter envNoDevice compSuspended (Counters.init 0)).1.seats =
        compSuspended.seats.map (fun _ => true) ∧
      (vt_func_enter envNoDevice compSuspended
        (Counters.init 0)).1.focus = true :=
  vt_enter_failure_keeps_output_and_proceeds envNoDevice compSuspended
    outSuspended 0 rfl rfl rfl (Or.inl rfl)

/-- C8: evaluating fbdev_output_reenable at a mode-drift re-entry shows
the file descriptor opened for the re-query (token 100) is never closed
on that path — the drift branch hands it to set_mode and then destroys
and recreates the output without closing it, so the descriptor leaks,
contradicting the claim that every opened descriptor is closed by the
map step. -/
theorem reenable_mode_drift_leaks_fd :
    Event.openFB 100 ∈ (fbdev_output_reenable (envAllOk siSmall)
      outSuspended (Counters.init 100)).2.2.2 ∧
    Event.closeFB 100 ∉ (fbdev_output_reenable (envAllOk siSmall)
      outSuspended (Counters.init 100)).2.2.2 ∧
    (fbdev_output_reenable (envAllOk siSmall) outSuspended
      (Counters.init 100)).1 = 0 := by
  decide

end Fbdev
